import Mathlib

/-!
Shallow embedding of the gogios benchmark-plotting scripts
(`bench/plot_results.py`, `bench/plot_readme.py`, `bench/plot_nrdp.py`).

The scripts read CSV benchmark files via `csv.DictReader`, project named
columns to floats, and build styled matplotlib figures.  We embed:

* Python's `float(str)` conversion (`pyFloat`), abstracting IEEE doubles by
  exact rationals (plus `inf`/`nan`); which strings are accepted follows
  CPython's grammar (optional surrounding whitespace, sign, decimal mantissa
  with optional fraction and exponent, underscores between digits,
  `inf`/`infinity`/`nan` case-insensitively).
* `csv.DictReader` row-to-dict semantics (`mkRecord`, `dictReader`): the
  first row is the header; blank rows are skipped; a long row keeps its
  extra fields under the rest key; a short row is padded with `None`
  (`Cell.pyNone`).  Low-level field splitting (quoting) is delegated to the
  underlying reader, so a CSV file is modelled as its list of field rows.
* `read_csv` over an abstract file system mapping paths to parsed files;
  a missing file makes `open` fail (`PyError.fileNotFound`, the spec's
  `NotFoundError`).
* `parse(rows, key) = [float(r[key]) for r in rows]`: left-to-right, failing
  at the first bad cell with `ValueError` (the spec's `ConversionError`),
  `KeyError` for a missing column, `TypeError` for `float(None)`.
-/

/-- Errors the scripts can raise while loading and projecting data.
`fileNotFound` models `FileNotFoundError` from `open` (spec: `NotFoundError`);
`valueError` models `ValueError` from `float()` on a non-numeric string
(spec: `ConversionError`); `keyError` models a missing column in a row dict;
`typeError` models `float(None)` on a padded cell. -/
inductive PyError where
  | fileNotFound (path : String)
  | keyError (k : String)
  | valueError
  | typeError
deriving DecidableEq, Repr

deriving instance DecidableEq for Except

/-- Result of Python's `float()`: a finite value (abstracted as the exact
rational of the literal), a signed infinity, or nan. -/
inductive PyFloat where
  | finite (q : ℚ)
  | inf (neg : Bool)
  | nan
deriving DecidableEq, Repr

/-- Whitespace characters `float()` strips from both ends of its argument. -/
def isPySpace (c : Char) : Bool :=
  c == ' ' || c == '\t' || c == '\n' || c == '\r' || c == '\x0b' || c == '\x0c'

/-- Decimal digit value of a character, if it is a digit. -/
def digitVal (c : Char) : Option ℕ :=
  if c.isDigit then some (c.toNat - '0'.toNat) else none

/-- Consume a run of decimal digits, allowing a single underscore between two
digits (CPython's `digitpart`): returns the accumulated value, the number of
digits consumed so far, and the unconsumed remainder. -/
def digitsLoop (acc cnt : ℕ) : List Char → ℕ × ℕ × List Char
  | [] => (acc, cnt, [])
  | [c] =>
    match digitVal c with
    | some d => (acc * 10 + d, cnt + 1, [])
    | none => (acc, cnt, [c])
  | c :: c2 :: rest =>
    match digitVal c with
    | some d => digitsLoop (acc * 10 + d) (cnt + 1) (c2 :: rest)
    | none =>
      if c == '_' && cnt != 0 then
        match digitVal c2 with
        | some d => digitsLoop (acc * 10 + d) (cnt + 1) rest
        | none => (acc, cnt, c :: c2 :: rest)
      else (acc, cnt, c :: c2 :: rest)

/-- Parse the decimal (non-inf/nan) body of a float literal: `digitpart?`
`('.' digitpart?)?` `('e' sign? digitpart)?`, requiring at least one mantissa
digit and no trailing characters. -/
def parseDecimal (neg : Bool) (l : List Char) : Option PyFloat :=
  let (ival, icnt, r1) := digitsLoop 0 0 l
  let (fval, fcnt, r2) :=
    match r1 with
    | '.' :: r => digitsLoop 0 0 r
    | _ => (0, 0, r1)
  let eRes : Option (Bool × ℕ × List Char) :=
    match r2 with
    | 'e' :: r =>
      let (esign, r') :=
        match r with
        | '+' :: rr => (false, rr)
        | '-' :: rr => (true, rr)
        | _ => (false, r)
      let (ev, ec, r'') := digitsLoop 0 0 r'
      if ec == 0 then none else some (esign, ev, r'')
    | _ => some (false, 0, r2)
  match eRes with
  | none => none
  | some (esign, ev, rem) =>
    if icnt + fcnt == 0 || !rem.isEmpty then none
    else
      let mant : ℚ := (ival : ℚ) + (fval : ℚ) / (10 : ℚ) ^ fcnt
      let e : ℤ := if esign then -(ev : ℤ) else (ev : ℤ)
      let v : ℚ := mant * (10 : ℚ) ^ e
      some (.finite (if neg then -v else v))

/-- Python's `float(s)` on a string: `some` result on success, `none` when
`float` would raise `ValueError`. -/
def pyFloat (s : String) : Option PyFloat :=
  let t := ((s.toList.dropWhile isPySpace).reverse.dropWhile isPySpace).reverse
  let t := t.map Char.toLower
  let (neg, body) :=
    match t with
    | '+' :: r => (false, r)
    | '-' :: r => (true, r)
    | _ => (false, t)
  if body == ['i', 'n', 'f'] || body == "infinity".toList then some (.inf neg)
  else if body == ['n', 'a', 'n'] then some .nan
  else parseDecimal neg body

/-- One cell of a row dict produced by `csv.DictReader`: a raw string field,
or the `restval` `None` padded in for a missing trailing field. -/
inductive Cell where
  | str (s : String)
  | pyNone
deriving DecidableEq, Repr

/-- One CSV row as `csv.DictReader` delivers it: an insertion-ordered dict
from column name to cell, plus the extra fields of an over-long row (stored
under the `restkey` in Python, kept separately here). -/
structure Record where
  fields : List (String × Cell)
  rest : List String
deriving DecidableEq, Repr

/-- Insert into an insertion-ordered dict with Python's overwrite semantics:
an existing key keeps its position and takes the new value. -/
def insertItem (d : List (String × Cell)) (k : String) (v : Cell) :
    List (String × Cell) :=
  if d.any (fun p => p.1 == k) then
    d.map (fun p => if p.1 == k then (k, v) else p)
  else d ++ [(k, v)]

/-- `csv.DictReader`'s dict for one data row under the given header:
`dict(zip(fieldnames, row))`, then extras under the rest key if the row is
longer, or `restval` (`None`) for the missing trailing columns if shorter. -/
def mkRecord (header row : List String) : Record :=
  let d := (header.zip row).foldl (fun d p => insertItem d p.1 (.str p.2)) []
  if header.length < row.length then
    { fields := d, rest := row.drop header.length }
  else
    { fields := (header.drop row.length).foldl (fun d k => insertItem d k .pyNone) d,
      rest := [] }

/-- `list(csv.DictReader(f))`: the first row is the header; each subsequent
non-blank row becomes a `Record`; an empty file yields no records. No
structural validation is performed. -/
def dictReader (rows : List (List String)) : List Record :=
  match rows with
  | [] => []
  | header :: data => (data.filter (fun r => !r.isEmpty)).map (mkRecord header)

/-- Abstract file system: maps a path to the parsed field rows of the CSV
file at that path, or `none` when the file is absent. -/
def FileSystem : Type := String → Option (List (List String))

/-- `read_csv(path)` from the scripts: `open` the file (raising
`FileNotFoundError` when absent) and return `list(csv.DictReader(f))`. -/
def read_csv (fs : FileSystem) (path : String) : Except PyError (List Record) :=
  match fs path with
  | none => .error (.fileNotFound path)
  | some rows => .ok (dictReader rows)

/-- `r[key]`: dict lookup, raising `KeyError` when the column is absent. -/
def Record.getItem (r : Record) (k : String) : Except PyError Cell :=
  match r.fields.find? (fun p => p.1 == k) with
  | some p => .ok p.2
  | none => .error (.keyError k)

/-- `float(cell)`: converts a string cell (raising `ValueError` when not
numeric-parsable) and raises `TypeError` on a `None` cell. -/
def floatOfCell : Cell → Except PyError PyFloat
  | .str s =>
    match pyFloat s with
    | some v => .ok v
    | none => .error .valueError
  | .pyNone => .error .typeError

/-- `float(r[key])` for one row. -/
def floatOfItem (r : Record) (k : String) : Except PyError PyFloat :=
  r.getItem k >>= floatOfCell

/-- `parse(rows, key) = [float(r[key]) for r in rows]`: left-to-right over the
rows, stopping at the first failing cell; on failure no partial list is
produced (the exception discards the partially built list). -/
def parse (rows : List Record) (key : String) : Except PyError (List PyFloat) :=
  match rows with
  | [] => .ok []
  | r :: rs => do
    let v ← floatOfItem r key
    let vs ← parse rs key
    pure (v :: vs)

/-- The successfully converted value of row `r`'s cell for column `k`, when
lookup and conversion both succeed. -/
def cellFloat (r : Record) (k : String) : Option PyFloat :=
  (floatOfItem r k).toOption

/-!
Chart model.  Matplotlib is abstracted as a specification language: an
`Axes` value records the drawing and styling commands issued on one panel, a
`Figure` collects panels with figure-level settings, and an `Event` trace
records the observable side effects of a run (directory creation, image
writes with their save settings, console lines).  Numeric style constants
(alphas, line widths, font sizes, figure dimensions) are exact decimals.
-/

/-- Axis scale as set by `set_xscale` / `set_yscale`. -/
inductive Scale where
  | linear
  | log
deriving DecidableEq, Repr

/-- An exact decimal constant `mant / 10 ^ exp` (e.g. `⟨85, 2⟩` is `0.85`),
used for style values so that equalities stay kernel-decidable. -/
structure Dec where
  mant : ℤ
  exp : ℕ
deriving DecidableEq, Repr

/-- The rational value of a decimal style constant. -/
def Dec.toRat (d : Dec) : ℚ := (d.mant : ℚ) / (10 : ℚ) ^ d.exp

/-- An RGBA color with decimal components. -/
structure RGBA where
  r : Dec
  g : Dec
  b : Dec
  a : Dec
deriving DecidableEq, Repr

/-- `(1, 1, 1, 0.85)`: the translucent white used for panel and figure
backgrounds. -/
def white85 : RGBA := ⟨⟨1, 0⟩, ⟨1, 0⟩, ⟨1, 0⟩, ⟨85, 2⟩⟩

/-- One plotted series: `ax.plot(xs, ys, fmt, label=…, color=…,
linewidth=…, markersize=…)`.  The format string carries the marker and line
style (`"o-"`: circles, `"s-"`: squares). -/
structure Series where
  xs : List PyFloat
  ys : List PyFloat
  fmt : String
  label : Option String
  color : String
  linewidth : Dec
  markersize : Option Dec
deriving Repr

/-- A horizontal reference line: `ax.axhline(y=…, color=…, linestyle=…,
linewidth=…, alpha=…, label=…)`. -/
structure HLine where
  y : Dec
  color : String
  linestyle : String
  linewidth : Dec
  alpha : Dec
  label : Option String
deriving DecidableEq, Repr

/-- Gridline settings from `ax.grid(True, alpha=…, color=…, linewidth=…)`. -/
structure GridSpec where
  alpha : Dec
  color : Option String
  linewidth : Option Dec
deriving DecidableEq, Repr

/-- The accumulated state of one panel. -/
structure Axes where
  series : List Series
  hlines : List HLine
  xscale : Scale
  yscale : Scale
  title : Option String
  titleFontsize : Option Dec
  titleBold : Bool
  titleColor : Option String
  xlabel : Option String
  ylabel : Option String
  xlabelColor : Option String
  ylabelColor : Option String
  facecolor : Option RGBA
  spineColor : Option String
  spineLinewidth : Option Dec
  tickColor : Option String
  tickLabelsize : Option Dec
  grid : Option GridSpec
  legendOn : Bool
  legendLoc : Option String
  legendFramealpha : Option Dec
  legendFontsize : Option Dec
  xThousands : Bool
deriving Repr

/-- A fresh panel as `plt.subplots` delivers it: nothing drawn, linear
scales, default (unset) styling. -/
def Axes.new : Axes :=
  { series := [], hlines := [], xscale := .linear, yscale := .linear,
    title := none, titleFontsize := none, titleBold := false, titleColor := none,
    xlabel := none, ylabel := none, xlabelColor := none, ylabelColor := none,
    facecolor := none, spineColor := none, spineLinewidth := none,
    tickColor := none, tickLabelsize := none, grid := none,
    legendOn := false, legendLoc := none, legendFramealpha := none,
    legendFontsize := none, xThousands := false }

/-- `ax.plot(xs, ys, fmt, …)`: append one series. -/
def Axes.plot (ax : Axes) (xs ys : List PyFloat) (fmt : String)
    (label : Option String) (color : String) (lw : Dec) (ms : Option Dec) : Axes :=
  { ax with series := ax.series ++ [⟨xs, ys, fmt, label, color, lw, ms⟩] }

/-- `ax.axhline(…)`: append one horizontal reference line. -/
def Axes.axhline (ax : Axes) (y : Dec) (color ls : String) (lw alpha : Dec)
    (label : Option String) : Axes :=
  { ax with hlines := ax.hlines ++ [⟨y, color, ls, lw, alpha, label⟩] }

/-- `ax.set_xscale(s)`. -/
def Axes.set_xscale (ax : Axes) (s : Scale) : Axes := { ax with xscale := s }

/-- `ax.set_yscale(s)`. -/
def Axes.set_yscale (ax : Axes) (s : Scale) : Axes := { ax with yscale := s }

/-- `ax.set_title(t, fontsize=…, fontweight=…)`. -/
def Axes.set_title (ax : Axes) (t : String) (fs : Option Dec) (bold : Bool) : Axes :=
  { ax with title := some t, titleFontsize := fs, titleBold := bold }

/-- `ax.set_xlabel(t)`. -/
def Axes.set_xlabel (ax : Axes) (t : String) : Axes := { ax with xlabel := some t }

/-- `ax.set_ylabel(t)`. -/
def Axes.set_ylabel (ax : Axes) (t : String) : Axes := { ax with ylabel := some t }

/-- `ax.legend(…)`. -/
def Axes.legend (ax : Axes) (loc : Option String) (fa fsz : Option Dec) : Axes :=
  { ax with legendOn := true, legendLoc := loc, legendFramealpha := fa,
            legendFontsize := fsz }

/-- `ax.grid(True, alpha=…, color=…, linewidth=…)`. -/
def Axes.gridOn (ax : Axes) (alpha : Dec) (color : Option String)
    (lw : Option Dec) : Axes :=
  { ax with grid := some ⟨alpha, color, lw⟩ }

/-- `ax.xaxis.set_major_formatter(ticker.FuncFormatter(...))` with the
thousands-separated integer format used by every script. -/
def Axes.thousandsX (ax : Axes) : Axes := { ax with xThousands := true }

/-- `ax.set_facecolor(c)`. -/
def Axes.set_facecolor (ax : Axes) (c : RGBA) : Axes := { ax with facecolor := some c }

/-- The spine loop of `style_ax`: `spine.set_color(c); spine.set_linewidth(lw)`
for every spine. -/
def Axes.spinesStyled (ax : Axes) (c : String) (lw : Dec) : Axes :=
  { ax with spineColor := some c, spineLinewidth := some lw }

/-- `ax.tick_params(colors=c, labelsize=ls)`. -/
def Axes.tick_params (ax : Axes) (c : String) (ls : Dec) : Axes :=
  { ax with tickColor := some c, tickLabelsize := some ls }

/-- `ax.xaxis.label.set_color(c); ax.yaxis.label.set_color(c);
ax.title.set_color(c)`. -/
def Axes.textColors (ax : Axes) (c : String) : Axes :=
  { ax with xlabelColor := some c, ylabelColor := some c, titleColor := some c }

/-- `style_ax(ax)` from plot_readme.py / plot_nrdp.py: translucent white
panel background, `#586069` spines of width 0.8, `#24292e` ticks (size 10)
and label/title text, gridlines with alpha 0.25, color `#586069`, width 0.5. -/
def style_ax (ax : Axes) : Axes :=
  let ax := ax.set_facecolor white85
  let ax := ax.spinesStyled "#586069" ⟨8, 1⟩
  let ax := ax.tick_params "#24292e" ⟨10, 0⟩
  let ax := ax.textColors "#24292e"
  ax.gridOn ⟨25, 2⟩ (some "#586069") (some ⟨5, 1⟩)

/-- One figure: its panels in layout order plus figure-level settings. -/
structure Figure where
  axes : List Axes
  suptitle : Option String
  suptitleFontsize : Option Dec
  suptitleBold : Bool
  suptitleColor : Option String
  figW : Dec
  figH : Dec
  patchFacecolor : Option RGBA
  tightLayout : Bool
  tightRect : Option (Dec × Dec × Dec × Dec)
deriving Repr

/-- A fresh figure of the given size. -/
def Figure.new (w h : Dec) (axs : List Axes) : Figure :=
  { axes := axs, suptitle := none, suptitleFontsize := none,
    suptitleBold := false, suptitleColor := none, figW := w, figH := h,
    patchFacecolor := none, tightLayout := false, tightRect := none }

/-- How one image was written: `savefig(path, dpi=…, bbox_inches=…,
pad_inches=…)`. -/
structure SaveSpec where
  path : String
  dpi : ℕ
  bboxTight : Bool
  padInches : Option Dec
deriving DecidableEq, Repr

/-- One observable side effect of a run. -/
inductive Event where
  | makedirs (dir : String)
  | savefig (fig : Figure) (spec : SaveSpec)
  | consoleLine (s : String)
deriving Repr

/-- `save(fig, path)` from plot_readme.py / plot_nrdp.py: set the figure
patch to translucent white, write the file at dpi 150 with tight bounding
box and 0.2 inch padding, close the figure, and print `  Saved <path>`. -/
def saveEvents (fig : Figure) (path : String) : List Event :=
  [.savefig { fig with patchFacecolor := some white85 }
      ⟨path, 150, true, some ⟨2, 1⟩⟩,
   .consoleLine ("  Saved " ++ path)]

/-- Division of a converted value by a positive constant (the `/1024` of the
memory panels); infinities keep their sign, nan stays nan. -/
def PyFloat.divPos : PyFloat → ℚ → PyFloat
  | .finite q, c => .finite (q / c)
  | .inf b, _ => .inf b
  | .nan, _ => .nan

/-- `[float(r[key])/c for r in rows]` (the memory panels' inline
comprehension). -/
def parseDiv (rows : List Record) (key : String) (c : ℚ) :
    Except PyError (List PyFloat) :=
  match rows with
  | [] => .ok []
  | r :: rs => do
    let v ← floatOfItem r key
    let vs ← parseDiv rs key c
    pure (PyFloat.divPos v c :: vs)

/-!
The three scripts' `main` functions, embedded as functions from an abstract
file system to the run's event trace.  An uncaught exception aborts the
whole run (`Except.error`), matching the scripts' fail-fast behavior.
`plotReadmeRun` additionally returns the final values of the dataset
variables `v3`/`v4`, making the frame property (datasets untouched by chart
composition) statable.
-/

/-- The repeated two-series comparison-panel pattern of plot_readme.py
(lines 52-65 and the loop bodies): parse the shared x column `"services"`
and the requested column from both datasets, style the panel, and plot the
`Before` series (red circles) then the `After` series (green squares), each
against its own dataset's x positions.  No length check of any kind is
performed. -/
def composeComparison (v3 v4 : List Record) (key : String)
    (label3 label4 : String) (ms : Dec) : Except PyError Axes := do
  let svcs_v3 ← parse v3 "services"
  let svcs_v4 ← parse v4 "services"
  let y3 ← parse v3 key
  let y4 ← parse v4 key
  let ax := style_ax Axes.new
  let ax := ax.plot svcs_v3 y3 "o-" (some label3) "#d62728" ⟨2, 0⟩ (some ms)
  let ax := ax.plot svcs_v4 y4 "s-" (some label4) "#2ca02c" ⟨2, 0⟩ (some ms)
  pure ax

/-- `main()` of bench/plot_readme.py: load the v3/v4 scale results, build the
five README figures, and save each through `save`; returns the event trace
and the final values of the dataset variables. -/
def plotReadmeRun (fs : FileSystem) :
    Except PyError (List Event × List Record × List Record) := do
  let v3 ← read_csv fs "bench/scale_results_v3.csv"
  let v4 ← read_csv fs "bench/scale_results_v4.csv"
  let out := "assets/readme"
  let svcs_v3 ← parse v3 "services"
  let svcs_v4 ← parse v4 "services"
  let colorV3 := "#d62728"
  let colorV4 := "#2ca02c"
  -- 1. Check throughput
  let y1v3 ← parse v3 "checks_per_sec"
  let y1v4 ← parse v4 "checks_per_sec"
  let ax := style_ax Axes.new
  let ax := ax.plot svcs_v3 y1v3 "o-" (some "Before (fork per check)") colorV3 ⟨2, 0⟩ (some ⟨6, 0⟩)
  let ax := ax.plot svcs_v4 y1v4 "s-" (some "After (fork server)") colorV4 ⟨2, 0⟩ (some ⟨6, 0⟩)
  let ax := ax.axhline ⟨1667, 0⟩ "#0366d6" "--" ⟨1, 0⟩ ⟨6, 1⟩ (some "Target: 100k svcs in 60s")
  let ax := ax.set_xscale .log
  let ax := ax.set_title "Check Throughput" (some ⟨13, 0⟩) true
  let ax := ax.set_xlabel "Number of Services"
  let ax := ax.set_ylabel "Checks/sec"
  let ax := ax.legend (some "best") (some ⟨95, 2⟩) (some ⟨9, 0⟩)
  let ax := ax.thousandsX
  let fig1 := Figure.new ⟨8, 0⟩ ⟨45, 1⟩ [ax]
  -- 2. Memory usage
  let mem_v3 ← parseDiv v3 "mem_rss_kb" 1024
  let mem_v4 ← parseDiv v4 "mem_rss_kb" 1024
  let ax := style_ax Axes.new
  let ax := ax.plot svcs_v3 mem_v3 "o-" (some "Before") colorV3 ⟨2, 0⟩ (some ⟨6, 0⟩)
  let ax := ax.plot svcs_v4 mem_v4 "s-" (some "After") colorV4 ⟨2, 0⟩ (some ⟨6, 0⟩)
  let ax := ax.set_xscale .log
  let ax := ax.set_title "Memory Usage (RSS)" (some ⟨13, 0⟩) true
  let ax := ax.set_xlabel "Number of Services"
  let ax := ax.set_ylabel "MB"
  let ax := ax.legend (some "best") (some ⟨95, 2⟩) (some ⟨9, 0⟩)
  let ax := ax.thousandsX
  let fig2 := Figure.new ⟨8, 0⟩ ⟨45, 1⟩ [ax]
  -- 3. Startup time
  let y3v3 ← parse v3 "startup_ms"
  let y3v4 ← parse v4 "startup_ms"
  let ax := style_ax Axes.new
  let ax := ax.plot svcs_v3 y3v3 "o-" (some "Before") colorV3 ⟨2, 0⟩ (some ⟨6, 0⟩)
  let ax := ax.plot svcs_v4 y3v4 "s-" (some "After") colorV4 ⟨2, 0⟩ (some ⟨6, 0⟩)
  let ax := ax.set_xscale .log
  let ax := ax.set_title "Startup Time" (some ⟨13, 0⟩) true
  let ax := ax.set_xlabel "Number of Services"
  let ax := ax.set_ylabel "ms"
  let ax := ax.legend (some "best") (some ⟨95, 2⟩) (some ⟨9, 0⟩)
  let ax := ax.thousandsX
  let fig3 := Figure.new ⟨8, 0⟩ ⟨45, 1⟩ [ax]
  -- 4. LQL throughput (3-panel): loop body, unrolled over the zipped keys
  let hr3 ← parse v3 "lql_hosts_rps"
  let hr4 ← parse v4 "lql_hosts_rps"
  let sr3 ← parse v3 "lql_services_rps"
  let sr4 ← parse v4 "lql_services_rps"
  let tr3 ← parse v3 "lql_stats_rps"
  let tr4 ← parse v4 "lql_stats_rps"
  let loopPanel := fun (y3 y4 : List PyFloat) (title : String) (ms : Dec)
      (ylab : String) =>
    let ax := style_ax Axes.new
    let ax := ax.plot svcs_v3 y3 "o-" (some "Before") colorV3 ⟨2, 0⟩ (some ms)
    let ax := ax.plot svcs_v4 y4 "s-" (some "After") colorV4 ⟨2, 0⟩ (some ms)
    let ax := ax.set_xscale .log
    let ax := ax.set_yscale .log
    let ax := ax.set_title title (some ⟨12, 0⟩) true
    let ax := ax.set_xlabel "Number of Services"
    let ax := ax.set_ylabel ylab
    let ax := ax.legend (some "best") (some ⟨95, 2⟩) (some ⟨9, 0⟩)
    ax.thousandsX
  let fig4 :=
    { Figure.new ⟨18, 0⟩ ⟨5, 0⟩
        [loopPanel hr3 hr4 "Hosts Query" ⟨5, 0⟩ "Requests/sec",
         loopPanel sr3 sr4 "Services Query" ⟨5, 0⟩ "Requests/sec",
         loopPanel tr3 tr4 "Stats Query" ⟨5, 0⟩ "Requests/sec"] with
      suptitle := some "Livestatus Query Throughput",
      suptitleFontsize := some ⟨14, 0⟩, suptitleBold := true,
      suptitleColor := some "#24292e",
      tightLayout := true,
      tightRect := some (⟨0, 0⟩, ⟨0, 0⟩, ⟨1, 0⟩, ⟨93, 2⟩) }
  -- 5. LQL latency (2-panel)
  let hp3 ← parse v3 "lql_hosts_p95_ms"
  let hp4 ← parse v4 "lql_hosts_p95_ms"
  let sp3 ← parse v3 "lql_services_p95_ms"
  let sp4 ← parse v4 "lql_services_p95_ms"
  let fig5 :=
    { Figure.new ⟨14, 0⟩ ⟨5, 0⟩
        [loopPanel hp3 hp4 "Hosts Query" ⟨6, 0⟩ "P95 Latency (ms)",
         loopPanel sp3 sp4 "Services Query" ⟨6, 0⟩ "P95 Latency (ms)"] with
      suptitle := some "Livestatus P95 Latency",
      suptitleFontsize := some ⟨14, 0⟩, suptitleBold := true,
      suptitleColor := some "#24292e",
      tightLayout := true,
      tightRect := some (⟨0, 0⟩, ⟨0, 0⟩, ⟨1, 0⟩, ⟨93, 2⟩) }
  let evs :=
    [Event.makedirs out]
      ++ saveEvents fig1 (out ++ "/check_throughput.png")
      ++ saveEvents fig2 (out ++ "/memory_usage.png")
      ++ saveEvents fig3 (out ++ "/startup_time.png")
      ++ saveEvents fig4 (out ++ "/lql_throughput.png")
      ++ saveEvents fig5 (out ++ "/lql_latency.png")
      ++ [Event.consoleLine "\nDone! All graphs in assets/readme/"]
  pure (evs, v3, v4)

/-- `main()` of bench/plot_readme.py, observable trace only. -/
def plotReadmeMain (fs : FileSystem) : Except PyError (List Event) :=
  (plotReadmeRun fs).map (fun p => p.1)

/-- `main()` of bench/plot_results.py: load the v2/v3 scale results and save
the 6-panel comparison figure and the 2-panel latency figure via
`plt.savefig(…, dpi=150)` (no bounding-box options, no `style_ax`). -/
def plotResultsMain (fs : FileSystem) : Except PyError (List Event) := do
  let out_dir := "bench/graphs"
  let v2 ← read_csv fs "bench/scale_results_v2.csv"
  let v3 ← read_csv fs "bench/scale_results_v3.csv"
  let svcs_v2 ← parse v2 "services"
  let svcs_v3 ← parse v3 "services"
  -- the repeated panel block: plot v2 (red circles) and v3 (green squares),
  -- log x (plus log y on the RPS/latency panels), legend(), grid alpha 0.3,
  -- thousands-separated x ticks
  let panel := fun (y2 y3 : List PyFloat) (ylog : Bool) (title xlab ylab : String) =>
    let ax := Axes.new
    let ax := ax.plot svcs_v2 y2 "o-" (some "v2") "#d62728" ⟨2, 0⟩ none
    let ax := ax.plot svcs_v3 y3 "s-" (some "v3") "#2ca02c" ⟨2, 0⟩ none
    let ax := ax.set_xscale .log
    let ax := if ylog then ax.set_yscale .log else ax
    let ax := ax.set_title title none false
    let ax := ax.set_xlabel xlab
    let ax := ax.set_ylabel ylab
    let ax := ax.legend none none none
    let ax := ax.gridOn ⟨3, 1⟩ none none
    ax.thousandsX
  let y1v2 ← parse v2 "checks_per_sec"
  let y1v3 ← parse v3 "checks_per_sec"
  let mem_v2 ← parseDiv v2 "mem_rss_kb" 1024
  let mem_v3 ← parseDiv v3 "mem_rss_kb" 1024
  let y3v2 ← parse v2 "startup_ms"
  let y3v3 ← parse v3 "startup_ms"
  let y4v2 ← parse v2 "lql_services_rps"
  let y4v3 ← parse v3 "lql_services_rps"
  let y5v2 ← parse v2 "lql_hosts_rps"
  let y5v3 ← parse v3 "lql_hosts_rps"
  let y6v2 ← parse v2 "lql_stats_rps"
  let y6v3 ← parse v3 "lql_stats_rps"
  let fig :=
    { Figure.new ⟨18, 0⟩ ⟨10, 0⟩
        [panel y1v2 y1v3 false "Check Throughput" "Services" "Checks/sec",
         panel mem_v2 mem_v3 false "Memory Usage (RSS)" "Services" "MB",
         panel y3v2 y3v3 false "Startup Time" "Services" "ms",
         panel y4v2 y4v3 true "LQL Services Query RPS" "Services" "Requests/sec",
         panel y5v2 y5v3 true "LQL Hosts Query RPS" "Services" "Requests/sec",
         panel y6v2 y6v3 true "LQL Stats Query RPS" "Services" "Requests/sec"] with
      suptitle := some "Gogios Scale Benchmark: v2 (before) vs v3 (after optimizations)",
      suptitleFontsize := some ⟨14, 0⟩, suptitleBold := true,
      tightLayout := true }
  let hp2 ← parse v2 "lql_hosts_p95_ms"
  let hp3 ← parse v3 "lql_hosts_p95_ms"
  let sp2 ← parse v2 "lql_services_p95_ms"
  let sp3 ← parse v3 "lql_services_p95_ms"
  let fig2 :=
    { Figure.new ⟨14, 0⟩ ⟨5, 0⟩
        [panel hp2 hp3 true "Hosts Query P95 Latency" "Services" "ms",
         panel sp2 sp3 true "Services Query P95 Latency" "Services" "ms"] with
      suptitle := some "LQL P95 Latency: v2 vs v3",
      suptitleFontsize := some ⟨14, 0⟩, suptitleBold := true,
      tightLayout := true }
  pure
    ([Event.makedirs out_dir,
      Event.savefig fig ⟨out_dir ++ "/scale_comparison.png", 150, false, none⟩,
      Event.consoleLine ("Saved " ++ out_dir ++ "/scale_comparison.png"),
      Event.savefig fig2 ⟨out_dir ++ "/latency_comparison.png", 150, false, none⟩,
      Event.consoleLine ("Saved " ++ out_dir ++ "/latency_comparison.png")])

/-- `main()` of bench/plot_nrdp.py: load the NRDP benchmark results and save
the three single-panel README figures through `save`. -/
def plotNrdpMain (fs : FileSystem) : Except PyError (List Event) := do
  let data ← read_csv fs "bench/nrdp_results.csv"
  let out := "assets/readme"
  let svcs ← parse data "unique_services"
  let color := "#0366d6"
  -- 1. NRDP Ingestion Throughput
  let y1 ← parse data "results_per_sec"
  let ax := style_ax Axes.new
  let ax := ax.plot svcs y1 "s-" (some "NRDP ingestion rate") color ⟨2, 0⟩ (some ⟨7, 0⟩)
  let ax := ax.set_xscale .log
  let ax := ax.set_title "NRDP Passive Check Ingestion Throughput" (some ⟨13, 0⟩) true
  let ax := ax.set_xlabel "Unique Services (dynamic registration)"
  let ax := ax.set_ylabel "Results/sec"
  let ax := ax.legend (some "best") (some ⟨95, 2⟩) (some ⟨9, 0⟩)
  let ax := ax.thousandsX
  let fig1 := Figure.new ⟨8, 0⟩ ⟨45, 1⟩ [ax]
  -- 2. NRDP P95 Batch Latency
  let y2 ← parse data "p95_batch_ms"
  let ax := style_ax Axes.new
  let ax := ax.plot svcs y2 "s-" (some "P95 batch latency") "#d62728" ⟨2, 0⟩ (some ⟨7, 0⟩)
  let ax := ax.set_xscale .log
  let ax := ax.set_title "NRDP P95 Batch Latency" (some ⟨13, 0⟩) true
  let ax := ax.set_xlabel "Unique Services (dynamic registration)"
  let ax := ax.set_ylabel "P95 Latency (ms)"
  let ax := ax.legend (some "best") (some ⟨95, 2⟩) (some ⟨9, 0⟩)
  let ax := ax.thousandsX
  let fig2 := Figure.new ⟨8, 0⟩ ⟨45, 1⟩ [ax]
  -- 3. Memory after NRDP ingestion
  let mem_mb ← parseDiv data "mem_rss_kb" 1024
  let ax := style_ax Axes.new
  let ax := ax.plot svcs mem_mb "s-" (some "RSS after ingestion") "#2ca02c" ⟨2, 0⟩ (some ⟨7, 0⟩)
  let ax := ax.set_xscale .log
  let ax := ax.set_title "Memory After NRDP Dynamic Registration" (some ⟨13, 0⟩) true
  let ax := ax.set_xlabel "Unique Services (dynamic registration)"
  let ax := ax.set_ylabel "MB"
  let ax := ax.legend (some "best") (some ⟨95, 2⟩) (some ⟨9, 0⟩)
  let ax := ax.thousandsX
  let fig3 := Figure.new ⟨8, 0⟩ ⟨45, 1⟩ [ax]
  pure
    ([Event.makedirs out]
      ++ saveEvents fig1 (out ++ "/nrdp_throughput.png")
      ++ saveEvents fig2 (out ++ "/nrdp_latency.png")
      ++ saveEvents fig3 (out ++ "/nrdp_memory.png")
      ++ [Event.consoleLine "\nDone! NRDP graphs in assets/readme/"])

/-!
Trace observations: the saved figures, their panels in order, the save
settings, and the console lines of an event trace.
-/

/-- The figures written by a trace, with their save settings, in order. -/
def savedFigs (evs : List Event) : List (Figure × SaveSpec) :=
  evs.filterMap (fun e =>
    match e with
    | .savefig f s => some (f, s)
    | _ => none)

/-- Every panel of every saved figure, in order. -/
def panels (evs : List Event) : List Axes :=
  (savedFigs evs).flatMap (fun p => p.1.axes)

/-- The save settings of each written image, in order. -/
def saveSpecs (evs : List Event) : List SaveSpec :=
  (savedFigs evs).map (fun p => p.2)

/-- The console lines printed by a trace, in order. -/
def consoleLines (evs : List Event) : List String :=
  evs.filterMap (fun e =>
    match e with
    | .consoleLine s => some s
    | _ => none)

/-- The directories created by a trace, in order. -/
def madeDirs (evs : List Event) : List String :=
  evs.filterMap (fun e =>
    match e with
    | .makedirs d => some d
    | _ => none)

/-- The (label, color, format) triple of every plotted series of every panel,
in trace order; the format string carries the marker (`"o-"`: circle,
`"s-"`: square). -/
def labelStyles (evs : List Event) : List (Option String × String × String) :=
  (panels evs).flatMap (fun ax => ax.series.map (fun s => (s.label, s.color, s.fmt)))

/-- The (x-scale, y-scale) pair of every panel, in trace order. -/
def panelScales (evs : List Event) : List (Scale × Scale) :=
  (panels evs).map (fun ax => (ax.xscale, ax.yscale))

/-!
Concrete sample data for the witnesses and counterexamples.
-/

/-- The column header shared by the sample scale-results files. -/
def scaleHeader : List String :=
  ["services", "checks_per_sec", "mem_rss_kb", "startup_ms",
   "lql_services_rps", "lql_hosts_rps", "lql_stats_rps",
   "lql_services_p95_ms", "lql_hosts_p95_ms"]

/-- Sample benchmark files: v2 and v3 have two data rows, v4 has three (a
row-count mismatch with v3), and the NRDP file has two. -/
def sampleFs : FileSystem := fun p =>
  if p = "bench/scale_results_v2.csv" then
    some [scaleHeader,
          ["10", "50", "2048", "5", "100", "200", "300", "1.5", "2.5"],
          ["1000", "3000", "4096", "9", "400", "500", "600", "3.5", "4.5"]]
  else if p = "bench/scale_results_v3.csv" then
    some [scaleHeader,
          ["10", "60", "1024", "4", "150", "250", "350", "1.25", "2.25"],
          ["1000", "3500", "2048", "8", "450", "550", "650", "3.25", "4.25"]]
  else if p = "bench/scale_results_v4.csv" then
    some [scaleHeader,
          ["10", "70", "512", "3", "160", "260", "360", "1.125", "2.125"],
          ["1000", "4000", "1024", "7", "460", "560", "660", "3.125", "4.125"],
          ["100000", "5000", "2048", "6", "470", "570", "670", "5.125", "6.125"]]
  else if p = "bench/nrdp_results.csv" then
    some [["unique_services", "results_per_sec", "p95_batch_ms", "mem_rss_kb"],
          ["10", "1000", "2.5", "1024"],
          ["1000", "2000", "3.5", "2048"]]
  else none

/-!
Predicates used by the theorem statements.
-/

/-- The raw string of row `r`'s cell for column `k`, when the column is
present and holds a string (not a padded `None`). -/
def strCell (r : Record) (k : String) : Option String :=
  match (r.getItem k).toOption with
  | some (.str s) => some s
  | _ => none

/-- Every row of `rows` has column `c` and its cell converts with `float`. -/
def goodCol (rows : List Record) (c : String) : Prop :=
  ∀ r ∈ rows, (cellFloat r c).isSome

/-- Every row of `rows` has column `c` as a raw string cell. -/
def strCol (rows : List Record) (c : String) : Prop :=
  ∀ r ∈ rows, (strCell r c).isSome

/-- The style fields of one panel that the fixed theme concerns: face color,
spine color and width, tick color, x/y-label and title colors, grid
settings, thousands-separated x ticks. -/
def themeObs (ax : Axes) :
    Option RGBA × Option String × Option Dec × Option String × Option String ×
      Option String × Option String × Option GridSpec × Bool :=
  (ax.facecolor, ax.spineColor, ax.spineLinewidth, ax.tickColor, ax.xlabelColor,
   ax.ylabelColor, ax.titleColor, ax.grid, ax.xThousands)

/-- The theme observation of a `style_ax`-styled panel with the thousands
x-axis formatter applied: translucent white face, `#586069` spines (0.8) and
grid (alpha 0.25, width 0.5), `#24292e` ticks, labels and title. -/
def styledObs :
    Option RGBA × Option String × Option Dec × Option String × Option String ×
      Option String × Option String × Option GridSpec × Bool :=
  (some white85, some "#586069", some ⟨8, 1⟩, some "#24292e", some "#24292e",
   some "#24292e", some "#24292e", some ⟨⟨25, 2⟩, some "#586069", some ⟨5, 1⟩⟩, true)

/-- The theme observation of a plot_results.py panel: all style fields left
at their defaults, only the alpha-0.3 grid and the thousands x formatter. -/
def resultsObs :
    Option RGBA × Option String × Option Dec × Option String × Option String ×
      Option String × Option String × Option GridSpec × Bool :=
  (none, none, none, none, none, none, none, some ⟨⟨3, 1⟩, none, none⟩, true)

/-- A panel carrying the full fixed theme of `style_ax` plus the
thousands-separated x-axis tick formatter. -/
def themed (ax : Axes) : Prop :=
  ax.facecolor = some white85 ∧ ax.spineColor = some "#586069" ∧
  ax.spineLinewidth = some ⟨8, 1⟩ ∧ ax.tickColor = some "#24292e" ∧
  ax.xlabelColor = some "#24292e" ∧ ax.ylabelColor = some "#24292e" ∧
  ax.titleColor = some "#24292e" ∧
  ax.grid = some ⟨⟨25, 2⟩, some "#586069", some ⟨5, 1⟩⟩ ∧
  ax.xThousands = true

/-- A panel of plot_results.py: no `style_ax` styling at all — default
background and colors — only gridlines with alpha 0.3 and the thousands
x-axis formatter. -/
def resultsStyled (ax : Axes) : Prop :=
  ax.facecolor = none ∧ ax.spineColor = none ∧ ax.spineLinewidth = none ∧
  ax.tickColor = none ∧ ax.xlabelColor = none ∧ ax.ylabelColor = none ∧
  ax.titleColor = none ∧ ax.grid = some ⟨⟨3, 1⟩, none, none⟩ ∧
  ax.xThousands = true

/-- A small loaded dataset used by witnesses: two data rows of a two-column
file. -/
def tinyRows : List Record :=
  dictReader [["services", "checks_per_sec"], ["10", "50"], ["1000", "3000"]]

/-- A loaded dataset whose second row's `checks_per_sec` cell is not
numeric-parsable. -/
def tinyBadRows : List Record :=
  dictReader [["services", "checks_per_sec"], ["10", "50"], ["1000", "fast"]]

/-- A three-row dataset (row count differs from `tinyRows`). -/
def tinyRows3 : List Record :=
  dictReader [["services", "checks_per_sec"],
              ["10", "70"], ["1000", "4000"], ["100000", "5000"]]

/-- A file system with a ragged CSV (a long and a short row under a
two-column header), a header-only CSV, and an empty CSV. -/
def raggedFs : FileSystem := fun p =>
  if p = "bench/ragged.csv" then some [["a", "b"], ["1", "2", "3"], ["4"]]
  else if p = "bench/headeronly.csv" then some [["a", "b"]]
  else if p = "bench/empty.csv" then some []
  else none

/-!
Theorems.  First, generic helpers about `Except`, then the claims C1-C10.
-/

theorem bindOk {ε α β : Type} {x : Except ε α} {f : α → Except ε β} {b : β}
    (h : x >>= f = .ok b) : ∃ a, x = .ok a ∧ f a = .ok b := by
  cases x with
  | error e => exact Except.noConfusion h
  | ok a => exact ⟨a, rfl, h⟩

theorem pureOk {ε α : Type} {a b : α} (h : (pure a : Except ε α) = .ok b) : a = b :=
  Except.ok.inj h

theorem mapOk {ε α β : Type} {x : Except ε α} {g : α → β} {b : β}
    (h : x.map g = .ok b) : ∃ a, x = .ok a ∧ g a = b := by
  cases x with
  | error e => exact Except.noConfusion h
  | ok a => exact ⟨a, rfl, Except.ok.inj h⟩

theorem exOk {ε α : Type} {x : Except ε α} (h : x.isOk = true) : ∃ a, x = .ok a := by
  cases x with
  | error e => simp [Except.isOk, Except.toBool] at h
  | ok a => exact ⟨a, rfl⟩

/-- Projection succeeds row by row when every cell of the queried column
converts: the result has one value per record, positionally aligned. -/
theorem parse_ok_of_all (rows : List Record) (c : String)
    (h : ∀ r ∈ rows, (cellFloat r c).isSome) :
    ∃ vs, parse rows c = .ok vs ∧ vs.length = rows.length ∧
      ∀ i : ℕ, vs[i]? = (rows[i]?.bind fun r => cellFloat r c) := by
  induction rows with
  | nil => exact ⟨[], rfl, rfl, fun i => by simp⟩
  | cons r rs ih =>
    have hr := h r (by simp)
    obtain ⟨v, hv⟩ : ∃ v, floatOfItem r c = .ok v := by
      unfold cellFloat at hr
      cases hfo : floatOfItem r c with
      | ok v => exact ⟨v, rfl⟩
      | error e => rw [hfo] at hr; simp [Except.toOption] at hr
    obtain ⟨vs, hvs, hlen, hidx⟩ := ih (fun r' hr' => h r' (by simp [hr']))
    refine ⟨v :: vs, ?_, by simp [hlen], ?_⟩
    · show floatOfItem r c >>= (fun v => parse rs c >>= fun vs => pure (v :: vs))
          = .ok (v :: vs)
      rw [hv]
      show parse rs c >>= (fun vs => pure (v :: vs)) = .ok (v :: vs)
      rw [hvs]
      rfl
    · intro i
      cases i with
      | zero => simp [cellFloat, hv, Except.toOption]
      | succ n => simpa using hidx n

/-- Projection fails with `ValueError` when every cell of the queried column
is a present string but at least one does not convert. -/
theorem parse_error_of_bad (rows : List Record) (c : String)
    (hall : ∀ r ∈ rows, (strCell r c).isSome)
    (hbad : ∃ r ∈ rows, cellFloat r c = none) :
    parse rows c = .error .valueError := by
  induction rows with
  | nil => simp at hbad
  | cons r rs ih =>
    have hrs : ∀ r' ∈ rs, (strCell r' c).isSome := fun r' h' => hall r' (by simp [h'])
    have hstr := hall r (by simp)
    obtain ⟨s, hs⟩ : ∃ s, (r.getItem c).toOption = some (.str s) := by
      unfold strCell at hstr
      cases hgi : (r.getItem c).toOption with
      | none => rw [hgi] at hstr; simp at hstr
      | some cell =>
        cases cell with
        | str s => exact ⟨s, rfl⟩
        | pyNone => rw [hgi] at hstr; simp at hstr
    have hget : r.getItem c = .ok (.str s) := by
      cases hgi2 : r.getItem c with
      | ok cc => rw [hgi2] at hs; simp only [Except.toOption] at hs;
                 exact congrArg Except.ok (Option.some.inj hs)
      | error e => rw [hgi2] at hs; simp [Except.toOption] at hs
    have hfi : floatOfItem r c = floatOfCell (.str s) := by
      unfold floatOfItem
      rw [hget]
      rfl
    by_cases hr : cellFloat r c = none
    · have herr : floatOfCell (.str s) = .error .valueError := by
        have hcf : cellFloat r c = (floatOfCell (.str s)).toOption := by
          unfold cellFloat
          rw [hfi]
        rw [hcf] at hr
        cases hpf : pyFloat s with
        | some v =>
          rw [show floatOfCell (.str s) = .ok v by simp [floatOfCell, hpf]] at hr
          simp [Except.toOption] at hr
        | none => simp [floatOfCell, hpf]
      show floatOfItem r c >>= (fun v => parse rs c >>= fun vs => pure (v :: vs))
          = .error .valueError
      rw [hfi, herr]
      rfl
    · obtain ⟨v, hv⟩ : ∃ v, floatOfItem r c = .ok v := by
        unfold cellFloat at hr
        cases hfo : floatOfItem r c with
        | ok v => exact ⟨v, rfl⟩
        | error e => rw [hfo] at hr; simp [Except.toOption] at hr
      have hbad' : ∃ r' ∈ rs, cellFloat r' c = none := by
        obtain ⟨r', hmem, hnone⟩ := hbad
        rcases List.mem_cons.mp hmem with h1 | h2
        · exact absurd (h1 ▸ hnone) hr
        · exact ⟨r', h2, hnone⟩
      show floatOfItem r c >>= (fun v => parse rs c >>= fun vs => pure (v :: vs))
          = .error .valueError
      rw [hv]
      show parse rs c >>= (fun vs => pure (v :: vs)) = .error .valueError
      rw [ih hrs hbad']
      rfl

/-- C1: for every loaded dataset with N data rows whose rows carry column
`c` with convertible cells, projection returns exactly N values, the i-th
being the numeric coercion of the i-th row's cell for `c`, in file order. -/
theorem claim1_projection_length_order (rows : List Record) (c : String)
    (h : ∀ r ∈ rows, (cellFloat r c).isSome) :
    ∃ vs, parse rows c = .ok vs ∧ vs.length = rows.length ∧
      ∀ i : ℕ, vs[i]? = (rows[i]?.bind fun r => cellFloat r c) :=
  parse_ok_of_all rows c h

theorem claim1_witness :
    (∀ r ∈ tinyRows, (cellFloat r "services").isSome) ∧ tinyRows.length = 2 ∧
    ∃ vs, parse tinyRows "services" = .ok vs ∧ vs.length = 2 ∧
      ∀ i : ℕ, vs[i]? = (tinyRows[i]?.bind fun r => cellFloat r "services") := by
  have hh : ∀ r ∈ tinyRows, (cellFloat r "services").isSome := by decide
  obtain ⟨vs, h1, h2, h3⟩ := claim1_projection_length_order tinyRows "services" hh
  exact ⟨hh, by decide, vs, h1, h2.trans (by decide), h3⟩

/-- C2: when every cell of the queried column is present as a string and at
least one is not numeric-parsable, projection fails with `ConversionError`
(`ValueError` from `float`), and no partial sequence is produced. -/
theorem claim2_projection_conversion_error (rows : List Record) (c : String)
    (hall : ∀ r ∈ rows, (strCell r c).isSome)
    (hbad : ∃ r ∈ rows, cellFloat r c = none) :
    parse rows c = .error .valueError ∧ ∀ vs, parse rows c ≠ .ok vs := by
  have h := parse_error_of_bad rows c hall hbad
  exact ⟨h, fun vs hv => by rw [h] at hv; exact Except.noConfusion hv⟩

theorem claim2_witness :
    (∀ r ∈ tinyBadRows, (strCell r "checks_per_sec").isSome) ∧
    (∃ r ∈ tinyBadRows, cellFloat r "checks_per_sec" = none) ∧
    parse tinyBadRows "checks_per_sec" = .error .valueError := by
  have h1 : ∀ r ∈ tinyBadRows, (strCell r "checks_per_sec").isSome := by decide
  have h2 : ∃ r ∈ tinyBadRows, cellFloat r "checks_per_sec" = none := by decide
  exact ⟨h1, h2, (claim2_projection_conversion_error tinyBadRows "checks_per_sec" h1 h2).1⟩

/-- C3 counterexample: the claim says loading fails with `FormatError` when
some row has a differing number of fields than the header, and when there is
no header row.  In fact a ragged file (a three-field and a one-field row
under a two-column header) loads successfully — extras under the rest key,
missing fields padded with `None` — and an empty (headerless) file loads as
the empty dataset.  No `FormatError` exists anywhere in the loader. -/
theorem claim3_counterexample :
    read_csv raggedFs "bench/ragged.csv"
      = .ok [{ fields := [("a", .str "1"), ("b", .str "2")], rest := ["3"] },
             { fields := [("a", .str "4"), ("b", .pyNone)], rest := [] }] ∧
    read_csv raggedFs "bench/empty.csv" = .ok [] := by
  exact ⟨by decide, by decide⟩

/-- C3 (amended): the loader fails with `NotFoundError` exactly when the
file is absent, and that is the only possible failure — it never fails for
structural reasons: any present file with a header loads successfully with
the non-blank data rows mapped to records in file order (ragged rows
included), and a file with no rows at all loads as the empty dataset. -/
theorem claim3_load_contract (fs : FileSystem) (path : String) :
    (read_csv fs path = .error (.fileNotFound path) ↔ fs path = none) ∧
    (∀ e, read_csv fs path = .error e → e = .fileNotFound path) ∧
    (∀ header data, fs path = some (header :: data) →
      read_csv fs path
        = .ok ((data.filter (fun r => !r.isEmpty)).map (mkRecord header))) ∧
    (fs path = some [] → read_csv fs path = .ok []) := by
  refine ⟨⟨?_, ?_⟩, ?_, ?_, ?_⟩
  · intro h
    cases hf : fs path with
    | none => rfl
    | some rows =>
      unfold read_csv at h
      rw [hf] at h
      exact Except.noConfusion h
  · intro h
    unfold read_csv
    rw [h]
  · intro e he
    cases hf : fs path with
    | none =>
      unfold read_csv at he
      rw [hf] at he
      exact (Except.error.inj he).symm
    | some rows =>
      unfold read_csv at he
      rw [hf] at he
      exact Except.noConfusion he
  · intro header data hf
    unfold read_csv
    rw [hf]
    rfl
  · intro hf
    unfold read_csv
    rw [hf]
    rfl

theorem claim3_witness :
    read_csv raggedFs "absent.csv" = .error (.fileNotFound "absent.csv") ∧
    read_csv raggedFs "bench/ragged.csv"
      = .ok (([["1", "2", "3"], ["4"]].filter (fun r => !r.isEmpty)).map
              (mkRecord ["a", "b"])) := by
  refine ⟨?_, ?_⟩
  · exact (claim3_load_contract raggedFs "absent.csv").1.mpr (by decide)
  · exact (claim3_load_contract raggedFs "bench/ragged.csv").2.2.1 ["a", "b"]
      [["1", "2", "3"], ["4"]] (by decide)

/-- C4: composing the two-series comparison panel from two datasets never
checks row counts — with all four columns convertible it succeeds whatever
the lengths, each series aligned on its own dataset's x positions — and it
fails with `ConversionError` as soon as either dataset has a non-numeric
cell in the requested column. -/
theorem claim4_mismatched_lengths_panel (v3 v4 : List Record) (key lb3 lb4 : String)
    (ms : Dec) :
    (goodCol v3 "services" → goodCol v4 "services" →
     goodCol v3 key → goodCol v4 key →
      ∃ ax s3 s4, composeComparison v3 v4 key lb3 lb4 ms = .ok ax ∧
        ax.series = [s3, s4] ∧
        s3.xs.length = v3.length ∧ s3.ys.length = v3.length ∧
        s4.xs.length = v4.length ∧ s4.ys.length = v4.length) ∧
    (goodCol v3 "services" → goodCol v4 "services" →
     strCol v3 key → strCol v4 key →
     ((∃ r ∈ v3, cellFloat r key = none) ∨ (∃ r ∈ v4, cellFloat r key = none)) →
      composeComparison v3 v4 key lb3 lb4 ms = .error .valueError) := by
  constructor
  · intro h1 h2 h3 h4
    obtain ⟨x3, hx3, hlx3, -⟩ := parse_ok_of_all v3 "services" h1
    obtain ⟨x4, hx4, hlx4, -⟩ := parse_ok_of_all v4 "services" h2
    obtain ⟨y3, hy3, hly3, -⟩ := parse_ok_of_all v3 key h3
    obtain ⟨y4, hy4, hly4, -⟩ := parse_ok_of_all v4 key h4
    have hcc : composeComparison v3 v4 key lb3 lb4 ms
        = .ok ((((style_ax Axes.new).plot x3 y3 "o-" (some lb3) "#d62728" ⟨2, 0⟩
                  (some ms)).plot x4 y4 "s-" (some lb4) "#2ca02c" ⟨2, 0⟩ (some ms))) := by
      show parse v3 "services" >>= _ = _
      rw [hx3]
      show parse v4 "services" >>= _ = _
      rw [hx4]
      show parse v3 key >>= _ = _
      rw [hy3]
      show parse v4 key >>= _ = _
      rw [hy4]
      rfl
    exact ⟨_, ⟨x3, y3, "o-", some lb3, "#d62728", ⟨2, 0⟩, some ms⟩,
           ⟨x4, y4, "s-", some lb4, "#2ca02c", ⟨2, 0⟩, some ms⟩,
           hcc, rfl, hlx3, hly3, hlx4, hly4⟩
  · intro h1 h2 hs3 hs4 hbad
    obtain ⟨x3, hx3, -, -⟩ := parse_ok_of_all v3 "services" h1
    obtain ⟨x4, hx4, -, -⟩ := parse_ok_of_all v4 "services" h2
    show parse v3 "services" >>= _ = _
    rw [hx3]
    show parse v4 "services" >>= _ = _
    rw [hx4]
    show parse v3 key >>= _ = _
    by_cases hb3 : ∃ r ∈ v3, cellFloat r key = none
    · rw [parse_error_of_bad v3 key hs3 hb3]
      rfl
    · have hg3 : goodCol v3 key := by
        intro r hr
        cases hopt : cellFloat r key with
        | none => exact absurd ⟨r, hr, hopt⟩ hb3
        | some v => rfl
      obtain ⟨y3, hy3, -, -⟩ := parse_ok_of_all v3 key hg3
      rw [hy3]
      show parse v4 key >>= _ = _
      rw [parse_error_of_bad v4 key hs4 (hbad.resolve_left hb3)]
      rfl

theorem claim4_witness :
    (goodCol tinyRows "services" ∧ goodCol tinyRows3 "services" ∧
     goodCol tinyRows "checks_per_sec" ∧ goodCol tinyRows3 "checks_per_sec" ∧
     tinyRows.length = 2 ∧ tinyRows3.length = 3 ∧
     (∃ ax s3 s4,
        composeComparison tinyRows tinyRows3 "checks_per_sec" "Before" "After" ⟨6, 0⟩
          = .ok ax ∧ ax.series = [s3, s4] ∧
        s3.xs.length = 2 ∧ s3.ys.length = 2 ∧ s4.xs.length = 3 ∧ s4.ys.length = 3)) ∧
    ((∃ r ∈ tinyBadRows, cellFloat r "checks_per_sec" = none) ∧
     composeComparison tinyRows tinyBadRows "checks_per_sec" "Before" "After" ⟨6, 0⟩
       = .error .valueError) := by
  have g1 : goodCol tinyRows "services" := by unfold goodCol; decide
  have g2 : goodCol tinyRows3 "services" := by unfold goodCol; decide
  have g3 : goodCol tinyRows "checks_per_sec" := by unfold goodCol; decide
  have g4 : goodCol tinyRows3 "checks_per_sec" := by unfold goodCol; decide
  have gb : goodCol tinyBadRows "services" := by unfold goodCol; decide
  have sb1 : strCol tinyRows "checks_per_sec" := by unfold strCol; decide
  have sb2 : strCol tinyBadRows "checks_per_sec" := by unfold strCol; decide
  have hbad : ∃ r ∈ tinyBadRows, cellFloat r "checks_per_sec" = none := by decide
  obtain ⟨ax, s3, s4, hok, hser, a1, a2, a3, a4⟩ :=
    (claim4_mismatched_lengths_panel tinyRows tinyRows3 "checks_per_sec"
      "Before" "After" ⟨6, 0⟩).1 g1 g2 g3 g4
  refine ⟨⟨g1, g2, g3, g4, by decide, by decide,
          ax, s3, s4, hok, hser, a1.trans (by decide), a2.trans (by decide),
          a3.trans (by decide), a4.trans (by decide)⟩, hbad, ?_⟩
  exact (claim4_mismatched_lengths_panel tinyRows tinyBadRows "checks_per_sec"
    "Before" "After" ⟨6, 0⟩).2 g1 gb sb1 sb2 (Or.inr hbad)

/-- C10: a CSV file consisting of only a header row loads successfully as an
empty dataset, and projecting any column name from the empty dataset — the
header's columns and absent names alike — returns the empty sequence with no
error. -/
theorem claim10_header_only (fs : FileSystem) (path : String) (header : List String)
    (h : fs path = some [header]) :
    read_csv fs path = .ok [] ∧ ∀ c, parse [] c = .ok [] := by
  constructor
  · unfold read_csv
    rw [h]
    rfl
  · intro c
    rfl

theorem claim10_witness :
    raggedFs "bench/headeronly.csv" = some [["a", "b"]] ∧
    read_csv raggedFs "bench/headeronly.csv" = .ok [] ∧
    parse [] "missing_column" = .ok [] := by
  have h : raggedFs "bench/headeronly.csv" = some [["a", "b"]] := by decide
  have h2 := claim10_header_only raggedFs "bench/headeronly.csv" ["a", "b"] h
  exact ⟨h, h2.1, h2.2 "missing_column"⟩

/-- The whole observable behavior of a successful plot_nrdp.py run: three
fully themed single-panel figures, all with logarithmic x and linear y (the
latency panel included), saved tight at dpi 150 under the created output
directory, one `Saved` line each plus a final `Done!` line. -/
theorem nrdp_trace_props (fs : FileSystem) (evs : List Event)
    (h : plotNrdpMain fs = .ok evs) :
    (panels evs).map themeObs = List.replicate 3 styledObs ∧
    panelScales evs = List.replicate 3 (.log, .linear) ∧
    labelStyles evs = [(some "NRDP ingestion rate", "#0366d6", "s-"),
                       (some "P95 batch latency", "#d62728", "s-"),
                       (some "RSS after ingestion", "#2ca02c", "s-")] ∧
    saveSpecs evs = [⟨"assets/readme/nrdp_throughput.png", 150, true, some ⟨2, 1⟩⟩,
                     ⟨"assets/readme/nrdp_latency.png", 150, true, some ⟨2, 1⟩⟩,
                     ⟨"assets/readme/nrdp_memory.png", 150, true, some ⟨2, 1⟩⟩] ∧
    consoleLines evs = ["  Saved assets/readme/nrdp_throughput.png",
                        "  Saved assets/readme/nrdp_latency.png",
                        "  Saved assets/readme/nrdp_memory.png",
                        "\nDone! NRDP graphs in assets/readme/"] ∧
    madeDirs evs = ["assets/readme"] ∧
    evs.head? = some (.makedirs "assets/readme") ∧
    (panels evs).map (fun ax => (ax.title, ax.yscale)) =
      [(some "NRDP Passive Check Ingestion Throughput", .linear),
       (some "NRDP P95 Batch Latency", .linear),
       (some "Memory After NRDP Dynamic Registration", .linear)] := by
  unfold plotNrdpMain at h
  obtain ⟨data, h1, h⟩ := bindOk h
  obtain ⟨svcs, h2, h⟩ := bindOk h
  obtain ⟨y1, h3, h⟩ := bindOk h
  obtain ⟨y2, h4, h⟩ := bindOk h
  obtain ⟨mem, h5, h⟩ := bindOk h
  have he := (pureOk h).symm
  subst he
  exact ⟨rfl, rfl, rfl, rfl, rfl, rfl, rfl, rfl⟩

/-- The whole observable behavior of a successful plot_readme.py run: five
figures (eight panels) all fully themed, log x everywhere and log y exactly
on the five LQL panels, label-keyed colors and markers, tight dpi-150 saves
into the created output directory, one `Saved` line per image plus a final
`Done!` line; the dataset variables still hold exactly what `read_csv`
loaded, and every panel's series use the projections of the `services`
column of those same datasets as x positions. -/
theorem readme_trace_props (fs : FileSystem)
    (p : List Event × List Record × List Record)
    (h : plotReadmeRun fs = .ok p) :
    (panels p.1).map themeObs = List.replicate 8 styledObs ∧
    panelScales p.1 = [(.log, .linear), (.log, .linear), (.log, .linear),
                       (.log, .log), (.log, .log), (.log, .log),
                       (.log, .log), (.log, .log)] ∧
    labelStyles p.1 =
      [(some "Before (fork per check)", "#d62728", "o-"),
       (some "After (fork server)", "#2ca02c", "s-"),
       (some "Before", "#d62728", "o-"), (some "After", "#2ca02c", "s-"),
       (some "Before", "#d62728", "o-"), (some "After", "#2ca02c", "s-"),
       (some "Before", "#d62728", "o-"), (some "After", "#2ca02c", "s-"),
       (some "Before", "#d62728", "o-"), (some "After", "#2ca02c", "s-"),
       (some "Before", "#d62728", "o-"), (some "After", "#2ca02c", "s-"),
       (some "Before", "#d62728", "o-"), (some "After", "#2ca02c", "s-"),
       (some "Before", "#d62728", "o-"), (some "After", "#2ca02c", "s-")] ∧
    saveSpecs p.1 =
      [⟨"assets/readme/check_throughput.png", 150, true, some ⟨2, 1⟩⟩,
       ⟨"assets/readme/memory_usage.png", 150, true, some ⟨2, 1⟩⟩,
       ⟨"assets/readme/startup_time.png", 150, true, some ⟨2, 1⟩⟩,
       ⟨"assets/readme/lql_throughput.png", 150, true, some ⟨2, 1⟩⟩,
       ⟨"assets/readme/lql_latency.png", 150, true, some ⟨2, 1⟩⟩] ∧
    consoleLines p.1 =
      ["  Saved assets/readme/check_throughput.png",
       "  Saved assets/readme/memory_usage.png",
       "  Saved assets/readme/startup_time.png",
       "  Saved assets/readme/lql_throughput.png",
       "  Saved assets/readme/lql_latency.png",
       "\nDone! All graphs in assets/readme/"] ∧
    madeDirs p.1 = ["assets/readme"] ∧
    p.1.head? = some (.makedirs "assets/readme") ∧
    read_csv fs "bench/scale_results_v3.csv" = .ok p.2.1 ∧
    read_csv fs "bench/scale_results_v4.csv" = .ok p.2.2 ∧
    ∃ x3 x4, parse p.2.1 "services" = .ok x3 ∧ parse p.2.2 "services" = .ok x4 ∧
      (panels p.1).map (fun ax => ax.series.map (fun s => s.xs))
        = List.replicate 8 [x3, x4] := by
  unfold plotReadmeRun at h
  obtain ⟨v3, hv3, h⟩ := bindOk h
  obtain ⟨v4, hv4, h⟩ := bindOk h
  obtain ⟨svcs3, hsv3, h⟩ := bindOk h
  obtain ⟨svcs4, hsv4, h⟩ := bindOk h
  obtain ⟨y13, _, h⟩ := bindOk h
  obtain ⟨y14, _, h⟩ := bindOk h
  obtain ⟨m3, _, h⟩ := bindOk h
  obtain ⟨m4, _, h⟩ := bindOk h
  obtain ⟨y33, _, h⟩ := bindOk h
  obtain ⟨y34, _, h⟩ := bindOk h
  obtain ⟨hr3, _, h⟩ := bindOk h
  obtain ⟨hr4, _, h⟩ := bindOk h
  obtain ⟨sr3, _, h⟩ := bindOk h
  obtain ⟨sr4, _, h⟩ := bindOk h
  obtain ⟨tr3, _, h⟩ := bindOk h
  obtain ⟨tr4, _, h⟩ := bindOk h
  obtain ⟨hp3, _, h⟩ := bindOk h
  obtain ⟨hp4, _, h⟩ := bindOk h
  obtain ⟨sp3, _, h⟩ := bindOk h
  obtain ⟨sp4, _, h⟩ := bindOk h
  have he := (pureOk h).symm
  subst he
  exact ⟨rfl, rfl, rfl, rfl, rfl, rfl, rfl, hv3, hv4,
         svcs3, svcs4, hsv3, hsv4, rfl⟩

/-- The whole observable behavior of a successful plot_results.py run: two
figures (eight panels) with no `style_ax` theming — default background and
colors, alpha-0.3 grid, thousands x ticks — log x everywhere and log y
exactly on the five RPS/latency panels, plain dpi-150 saves (no tight
bounding box) into the created output directory, and exactly one `Saved`
line per image with no other output. -/
theorem results_trace_props (fs : FileSystem) (evs : List Event)
    (h : plotResultsMain fs = .ok evs) :
    (panels evs).map themeObs = List.replicate 8 resultsObs ∧
    panelScales evs = [(.log, .linear), (.log, .linear), (.log, .linear),
                       (.log, .log), (.log, .log), (.log, .log),
                       (.log, .log), (.log, .log)] ∧
    labelStyles evs =
      [(some "v2", "#d62728", "o-"), (some "v3", "#2ca02c", "s-"),
       (some "v2", "#d62728", "o-"), (some "v3", "#2ca02c", "s-"),
       (some "v2", "#d62728", "o-"), (some "v3", "#2ca02c", "s-"),
       (some "v2", "#d62728", "o-"), (some "v3", "#2ca02c", "s-"),
       (some "v2", "#d62728", "o-"), (some "v3", "#2ca02c", "s-"),
       (some "v2", "#d62728", "o-"), (some "v3", "#2ca02c", "s-"),
       (some "v2", "#d62728", "o-"), (some "v3", "#2ca02c", "s-"),
       (some "v2", "#d62728", "o-"), (some "v3", "#2ca02c", "s-")] ∧
    saveSpecs evs =
      [⟨"bench/graphs/scale_comparison.png", 150, false, none⟩,
       ⟨"bench/graphs/latency_comparison.png", 150, false, none⟩] ∧
    consoleLines evs = ["Saved bench/graphs/scale_comparison.png",
                        "Saved bench/graphs/latency_comparison.png"] ∧
    madeDirs evs = ["bench/graphs"] ∧
    evs.head? = some (.makedirs "bench/graphs") := by
  unfold plotResultsMain at h
  obtain ⟨v2, hv2, h⟩ := bindOk h
  obtain ⟨v3, hv3, h⟩ := bindOk h
  obtain ⟨svcs2, _, h⟩ := bindOk h
  obtain ⟨svcs3, _, h⟩ := bindOk h
  obtain ⟨y12, _, h⟩ := bindOk h
  obtain ⟨y13, _, h⟩ := bindOk h
  obtain ⟨m2, _, h⟩ := bindOk h
  obtain ⟨m3, _, h⟩ := bindOk h
  obtain ⟨y32, _, h⟩ := bindOk h
  obtain ⟨y33, _, h⟩ := bindOk h
  obtain ⟨y42, _, h⟩ := bindOk h
  obtain ⟨y43, _, h⟩ := bindOk h
  obtain ⟨y52, _, h⟩ := bindOk h
  obtain ⟨y53, _, h⟩ := bindOk h
  obtain ⟨y62, _, h⟩ := bindOk h
  obtain ⟨y63, _, h⟩ := bindOk h
  obtain ⟨p2, _, h⟩ := bindOk h
  obtain ⟨p3, _, h⟩ := bindOk h
  obtain ⟨q2, _, h⟩ := bindOk h
  obtain ⟨q3, _, h⟩ := bindOk h
  have he := (pureOk h).symm
  subst he
  exact ⟨rfl, rfl, rfl, rfl, rfl, rfl, rfl⟩

/-- Panels whose theme observation is constantly `styledObs` are all fully
themed. -/
theorem themed_of_obs {l : List Axes} {n : ℕ}
    (h : l.map themeObs = List.replicate n styledObs) : ∀ ax ∈ l, themed ax := by
  intro ax hax
  have hm : themeObs ax ∈ List.replicate n styledObs := by
    rw [← h]
    exact List.mem_map_of_mem _ hax
  have heq : themeObs ax = styledObs := List.eq_of_mem_replicate hm
  unfold themeObs styledObs at heq
  simp only [Prod.mk.injEq] at heq
  unfold themed
  exact heq

/-- Panels whose theme observation is constantly `resultsObs` carry only the
grid and formatter styling of plot_results.py. -/
theorem resultsStyled_of_obs {l : List Axes} {n : ℕ}
    (h : l.map themeObs = List.replicate n resultsObs) :
    ∀ ax ∈ l, resultsStyled ax := by
  intro ax hax
  have hm : themeObs ax ∈ List.replicate n resultsObs := by
    rw [← h]
    exact List.mem_map_of_mem _ hax
  have heq : themeObs ax = resultsObs := List.eq_of_mem_replicate hm
  unfold themeObs resultsObs at heq
  simp only [Prod.mk.injEq] at heq
  unfold resultsStyled
  exact heq

/-- C5 counterexample: the claim says every panel in every chart group
receives the fixed theme; but the eight panels of a plot_results.py run have
no background fill and no tick-color styling at all, and their gridline
alpha is 0.3 rather than 0.25. -/
theorem claim5_counterexample :
    (plotResultsMain sampleFs).map
        (fun e => (panels e).map (fun ax => (ax.facecolor, ax.tickColor, ax.grid)))
      = .ok (List.replicate 8 (none, none, some ⟨⟨3, 1⟩, none, none⟩)) := by
  decide

/-- C5 (amended): every panel of the README and NRDP chart groups receives
the fixed theme — translucent white background with alpha 0.85, `#24292e`
label/tick/title color, `#586069` spine and grid color, alpha-0.25
gridlines, thousands-separated x tick labels.  The panels of the results
script's chart groups receive only alpha-0.3 gridlines and the
thousands-separated x tick labels, keeping default background and colors. -/
theorem claim5_theme (fs₁ fs₂ fs₃ : FileSystem) (e₁ e₂ e₃ : List Event)
    (h₁ : plotReadmeMain fs₁ = .ok e₁) (h₂ : plotNrdpMain fs₂ = .ok e₂)
    (h₃ : plotResultsMain fs₃ = .ok e₃) :
    (∀ ax ∈ panels e₁, themed ax) ∧ (∀ ax ∈ panels e₂, themed ax) ∧
    (∀ ax ∈ panels e₃, resultsStyled ax) := by
  obtain ⟨p, hp, hfst⟩ := mapOk h₁
  have hfst' : p.1 = e₁ := hfst
  have props := readme_trace_props fs₁ p hp
  rw [hfst'] at props
  exact ⟨themed_of_obs props.1,
         themed_of_obs (nrdp_trace_props fs₂ e₂ h₂).1,
         resultsStyled_of_obs (results_trace_props fs₃ e₃ h₃).1⟩

theorem claim5_witness :
    ∃ e₁ e₂ e₃, plotReadmeMain sampleFs = .ok e₁ ∧ plotNrdpMain sampleFs = .ok e₂ ∧
      plotResultsMain sampleFs = .ok e₃ ∧
      (∀ ax ∈ panels e₁, themed ax) ∧ (∀ ax ∈ panels e₂, themed ax) ∧
      (∀ ax ∈ panels e₃, resultsStyled ax) := by
  obtain ⟨e₁, h₁⟩ := exOk (x := plotReadmeMain sampleFs) (by decide)
  obtain ⟨e₂, h₂⟩ := exOk (x := plotNrdpMain sampleFs) (by decide)
  obtain ⟨e₃, h₃⟩ := exOk (x := plotResultsMain sampleFs) (by decide)
  obtain ⟨a, b, c⟩ := claim5_theme sampleFs sampleFs sampleFs e₁ e₂ e₃ h₁ h₂ h₃
  exact ⟨e₁, e₂, e₃, h₁, h₂, h₃, a, b, c⟩

/-- C6 counterexample: the claim says every emit uses padded
tight-bounding-box cropping and that exactly one console line per image is
printed with no other output; but the results script's two emits save with
no bounding-box options at all, and the README run prints six lines for its
five images (a final `Done!` summary line follows the per-image lines). -/
theorem claim6_counterexample :
    (plotResultsMain sampleFs).map
        (fun e => (saveSpecs e).map (fun s => (s.bboxTight, s.padInches)))
      = .ok [(false, none), (false, none)] ∧
    (plotReadmeMain sampleFs).map
        (fun e => ((saveSpecs e).length, (consoleLines e).length)) = .ok (5, 6) := by
  exact ⟨by decide, by decide⟩

/-- C6 (amended): every emit of every chart group renders to the
caller-specified path at DPI 150 and the output directory is created before
any image is written; the README and NRDP scripts crop with a tight bounding
box padded 0.2 inches and print one `  Saved <path>` line per image plus one
final `Done!` summary line, while the results script saves with default
cropping and prints exactly one `Saved <path>` line per image and nothing
else. -/
theorem claim6_emit (fs₁ fs₂ fs₃ : FileSystem) (e₁ e₂ e₃ : List Event)
    (h₁ : plotReadmeMain fs₁ = .ok e₁) (h₂ : plotNrdpMain fs₂ = .ok e₂)
    (h₃ : plotResultsMain fs₃ = .ok e₃) :
    (∀ s ∈ saveSpecs e₁ ++ saveSpecs e₂ ++ saveSpecs e₃, s.dpi = 150) ∧
    (∀ s ∈ saveSpecs e₁ ++ saveSpecs e₂,
      s.bboxTight = true ∧ s.padInches = some ⟨2, 1⟩) ∧
    (∀ s ∈ saveSpecs e₃, s.bboxTight = false ∧ s.padInches = none) ∧
    consoleLines e₁ = (saveSpecs e₁).map (fun s => "  Saved " ++ s.path)
      ++ ["\nDone! All graphs in assets/readme/"] ∧
    consoleLines e₂ = (saveSpecs e₂).map (fun s => "  Saved " ++ s.path)
      ++ ["\nDone! NRDP graphs in assets/readme/"] ∧
    consoleLines e₃ = (saveSpecs e₃).map (fun s => "Saved " ++ s.path) ∧
    e₁.head? = some (.makedirs "assets/readme") ∧
    e₂.head? = some (.makedirs "assets/readme") ∧
    e₃.head? = some (.makedirs "bench/graphs") := by
  obtain ⟨p, hp, hfst⟩ := mapOk h₁
  have hfst' : p.1 = e₁ := hfst
  have pr := readme_trace_props fs₁ p hp
  rw [hfst'] at pr
  obtain ⟨-, -, -, rs, rc, -, rh, -, -, -⟩ := pr
  obtain ⟨-, -, -, ns, nc, -, nh, -⟩ := nrdp_trace_props fs₂ e₂ h₂
  obtain ⟨-, -, -, ss, sc, -, sh⟩ := results_trace_props fs₃ e₃ h₃
  rw [rs, rc, ns, nc, ss, sc]
  refine ⟨?_, ?_, ?_, ?_, ?_, ?_, rh, nh, sh⟩ <;> decide

theorem claim6_witness :
    ∃ e₁ e₂ e₃, plotReadmeMain sampleFs = .ok e₁ ∧ plotNrdpMain sampleFs = .ok e₂ ∧
      plotResultsMain sampleFs = .ok e₃ ∧
      (∀ s ∈ saveSpecs e₁ ++ saveSpecs e₂ ++ saveSpecs e₃, s.dpi = 150) ∧
      consoleLines e₃ = (saveSpecs e₃).map (fun s => "Saved " ++ s.path) ∧
      e₁.head? = some (.makedirs "assets/readme") := by
  obtain ⟨e₁, h₁⟩ := exOk (x := plotReadmeMain sampleFs) (by decide)
  obtain ⟨e₂, h₂⟩ := exOk (x := plotNrdpMain sampleFs) (by decide)
  obtain ⟨e₃, h₃⟩ := exOk (x := plotResultsMain sampleFs) (by decide)
  obtain ⟨d, -, -, -, -, c3, hd1, -, -⟩ :=
    claim6_emit sampleFs sampleFs sampleFs e₁ e₂ e₃ h₁ h₂ h₃
  exact ⟨e₁, e₂, e₃, h₁, h₂, h₃, d, c3, hd1⟩

/-- C7: re-running plot_readme composition on any two (in particular,
identical) inputs yields the same label-to-(color, marker) assignment; the
assignment is label-keyed — any two series carrying the same label anywhere
in the chart group carry the same color and format/marker — and the labels
`Before` and `After` always map to red circles and green squares. -/
theorem claim7_label_keyed (fs fs' : FileSystem) (e e' : List Event)
    (h : plotReadmeMain fs = .ok e) (h' : plotReadmeMain fs' = .ok e') :
    labelStyles e = labelStyles e' ∧
    (∀ p ∈ labelStyles e, ∀ q ∈ labelStyles e, p.1 = q.1 → p.2 = q.2) ∧
    (some "Before", "#d62728", "o-") ∈ labelStyles e ∧
    (some "After", "#2ca02c", "s-") ∈ labelStyles e := by
  obtain ⟨p, hp, hfst⟩ := mapOk h
  have hfst' : p.1 = e := hfst
  have pr := readme_trace_props fs p hp
  rw [hfst'] at pr
  obtain ⟨q, hq, hfst2⟩ := mapOk h'
  have hfst2' : q.1 = e' := hfst2
  have pr' := readme_trace_props fs' q hq
  rw [hfst2'] at pr'
  have hl := pr.2.2.1
  have hl' := pr'.2.2.1
  refine ⟨hl.trans hl'.symm, ?_, ?_, ?_⟩ <;> rw [hl] <;> decide

theorem claim7_witness :
    ∃ e e', plotReadmeMain sampleFs = .ok e ∧ plotReadmeMain sampleFs = .ok e' ∧
      labelStyles e = labelStyles e' ∧
      (∀ p ∈ labelStyles e, ∀ q ∈ labelStyles e, p.1 = q.1 → p.2 = q.2) := by
  obtain ⟨e, h⟩ := exOk (x := plotReadmeMain sampleFs) (by decide)
  obtain ⟨a, b, -, -⟩ := claim7_label_keyed sampleFs sampleFs e e h h
  exact ⟨e, e, h, h, a, b⟩

/-- C8 counterexample: the claim says the y-axis is logarithmic exactly on
the throughput (RPS) and latency panels of every chart group; but the NRDP
script's throughput panel (`Results/sec`) and its P95 latency panel both
keep a linear y-axis. -/
theorem claim8_counterexample :
    (plotNrdpMain sampleFs).map
        (fun e => (panels e).map (fun ax => (ax.title, ax.ylabel, ax.xscale, ax.yscale)))
      = .ok [(some "NRDP Passive Check Ingestion Throughput", some "Results/sec",
              .log, .linear),
             (some "NRDP P95 Batch Latency", some "P95 Latency (ms)", .log, .linear),
             (some "Memory After NRDP Dynamic Registration", some "MB",
              .log, .linear)] := by
  decide

/-- C8 (amended): the scale emitted for each panel is exactly the scale the
caller configured, independent of the data: every panel of every chart group
has a logarithmic x-axis; the y-axis is logarithmic exactly on the five LQL
query-rate/latency panels of the README script and the five RPS/latency
panels of the results script, while the check-throughput, memory and startup
panels and all three NRDP panels (its throughput and latency panels
included) keep a linear y-axis. -/
theorem claim8_axis_scales (fs₁ fs₂ fs₃ : FileSystem) (e₁ e₂ e₃ : List Event)
    (h₁ : plotReadmeMain fs₁ = .ok e₁) (h₂ : plotNrdpMain fs₂ = .ok e₂)
    (h₃ : plotResultsMain fs₃ = .ok e₃) :
    (∀ p ∈ panelScales e₁ ++ panelScales e₂ ++ panelScales e₃, p.1 = .log) ∧
    panelScales e₁ = [(.log, .linear), (.log, .linear), (.log, .linear),
                      (.log, .log), (.log, .log), (.log, .log),
                      (.log, .log), (.log, .log)] ∧
    panelScales e₂ = List.replicate 3 (.log, .linear) ∧
    panelScales e₃ = [(.log, .linear), (.log, .linear), (.log, .linear),
                      (.log, .log), (.log, .log), (.log, .log),
                      (.log, .log), (.log, .log)] := by
  obtain ⟨p, hp, hfst⟩ := mapOk h₁
  have hfst' : p.1 = e₁ := hfst
  have pr := readme_trace_props fs₁ p hp
  rw [hfst'] at pr
  have s1 := pr.2.1
  have s2 := (nrdp_trace_props fs₂ e₂ h₂).2.1
  have s3 := (results_trace_props fs₃ e₃ h₃).2.1
  refine ⟨?_, s1, s2, s3⟩
  rw [s1, s2, s3]
  decide

theorem claim8_witness :
    ∃ e₁ e₂ e₃, plotReadmeMain sampleFs = .ok e₁ ∧ plotNrdpMain sampleFs = .ok e₂ ∧
      plotResultsMain sampleFs = .ok e₃ ∧
      (∀ p ∈ panelScales e₁ ++ panelScales e₂ ++ panelScales e₃, p.1 = .log) ∧
      panelScales e₂ = List.replicate 3 (.log, .linear) := by
  obtain ⟨e₁, h₁⟩ := exOk (x := plotReadmeMain sampleFs) (by decide)
  obtain ⟨e₂, h₂⟩ := exOk (x := plotNrdpMain sampleFs) (by decide)
  obtain ⟨e₃, h₃⟩ := exOk (x := plotResultsMain sampleFs) (by decide)
  obtain ⟨a, -, b, -⟩ := claim8_axis_scales sampleFs sampleFs sampleFs e₁ e₂ e₃ h₁ h₂ h₃
  exact ⟨e₁, e₂, e₃, h₁, h₂, h₃, a, b⟩

/-- C9: datasets are immutable through chart composition — after the whole
plot_readme run, the dataset variables still hold exactly the records
`read_csv` loaded (row order, column names and cell values unchanged), and
re-projecting the `services` column of those same datasets yields exactly
the x-sequences embedded in every one of the eight panels, so repeated
projections of the same column from the same dataset agree. -/
theorem claim9_dataset_immutable (fs : FileSystem)
    (p : List Event × List Record × List Record)
    (h : plotReadmeRun fs = .ok p) :
    read_csv fs "bench/scale_results_v3.csv" = .ok p.2.1 ∧
    read_csv fs "bench/scale_results_v4.csv" = .ok p.2.2 ∧
    ∃ x3 x4, parse p.2.1 "services" = .ok x3 ∧ parse p.2.2 "services" = .ok x4 ∧
      (panels p.1).map (fun ax => ax.series.map (fun s => s.xs))
        = List.replicate 8 [x3, x4] := by
  obtain ⟨-, -, -, -, -, -, -, r3, r4, ex⟩ := readme_trace_props fs p h
  exact ⟨r3, r4, ex⟩

theorem claim9_witness :
    ∃ p, plotReadmeRun sampleFs = .ok p ∧
      read_csv sampleFs "bench/scale_results_v3.csv" = .ok p.2.1 ∧
      read_csv sampleFs "bench/scale_results_v4.csv" = .ok p.2.2 ∧
      ∃ x3 x4, parse p.2.1 "services" = .ok x3 ∧ parse p.2.2 "services" = .ok x4 ∧
        (panels p.1).map (fun ax => ax.series.map (fun s => s.xs))
          = List.replicate 8 [x3, x4] := by
  obtain ⟨p, hp⟩ := exOk (x := plotReadmeRun sampleFs) (by decide)
  obtain ⟨a, b, c⟩ := claim9_dataset_immutable sampleFs p hp
  exact ⟨p, hp, a, b, c⟩
